import Mathlib

/-!
Verification of the Vigilis tiered log-classification pipeline.

The development shallowly embeds the repository's core:
* `RegexProcessor` (src/processors/regex_processing.py): the ordered rule
  list and its first-match classification, with each Python regex pattern
  translated to an executable recognizer over `List Char`.
* `BertProcessor` (src/processors/bert_processing.py): the confidence-gated
  embedding classifier; the opaque sentence-transformer plus pickled
  classifier pair is a parameter (`BertClf`) whose operations may fault,
  and probabilities are modelled as rationals.
* `LlmProcessor` (src/processors/llm_processing.py): the generative stage,
  with the remote Groq client modelled as an optional pure call function
  and the issued prompts recorded in a trace.
* `LogClassifier` (src/main.py): the waterfall policy `classify_message`
  and the paced batch runner `batch_classify`, with `time.sleep` recorded
  as an explicit trace event.
-/

namespace Vigilis

/-! ## Python-level string helpers -/

/-- Truthiness of an optional Python string: `None` and `""` are falsy.
Models the `if label:` check in `LogClassifier.classify_message`. -/
def pyTruthy : Option String → Bool
  | none => false
  | some s => !s.isEmpty

/-- Python `$` (without `re.M`) matches at the end of the string or just
before a single trailing newline. -/
def atEnd : List Char → Bool
  | [] => true
  | [c] => c = '\n'
  | _ => false

/-- ASCII decimal digit, modelling `\d` on the repository's ASCII log lines. -/
def isDigitCh (c : Char) : Bool := c.isDigit

/-- Word character for `\b`, modelling `\w` on ASCII text: letter, digit or
underscore. -/
def isWordChar (c : Char) : Bool := c.isAlphanum || c = '_'

/-- Consume an exact literal, returning the rest of the input. -/
def lit : List Char → List Char → Option (List Char)
  | [], s => some s
  | _ :: _, [] => none
  | p :: ps, c :: cs => if c = p then lit ps cs else none

/-- Consume one or more digits greedily (`\d+`), returning the rest. -/
def digits1 : List Char → Option (List Char)
  | [] => none
  | c :: cs =>
    if isDigitCh c then
      some (cs.dropWhile isDigitCh)
    else none

/-- Consume exactly `n` digits (`\d{n}`), returning the rest. -/
def digitsN : Nat → List Char → Option (List Char)
  | 0, s => some s
  | _ + 1, [] => none
  | n + 1, c :: cs => if isDigitCh c then digitsN n cs else none

/-- Sequencing of consumers. -/
def andThen (p q : List Char → Option (List Char)) (s : List Char) :
    Option (List Char) :=
  match p s with
  | none => none
  | some rest => q rest

/-- Matches `.+` followed by continuation `k`: consume one or more non-newline
characters, accepting if `k` accepts some remaining suffix. -/
def dotPlusThen (k : List Char → Bool) : List Char → Bool
  | [] => false
  | c :: cs => if c = '\n' then false else k cs || dotPlusThen k cs

/-- A consumer succeeds at the very end of the line (Python `$`). -/
def fullMatch (p : List Char → Option (List Char)) (s : List Char) : Bool :=
  match p s with
  | none => false
  | some rest => atEnd rest

/-! ## The eleven regex rules of `RegexProcessor.REGEX_RULES` -/

/-- Pattern `^User User\d+ logged (in|out)\.$` -/
def patUserLogged (s : String) : Bool :=
  fullMatch
    (andThen (lit "User User".data)
      (andThen digits1
        (andThen (lit " logged ".data)
          (fun r =>
            match lit "in.".data r with
            | some r2 => some r2
            | none => lit "out.".data r))))
    s.data

/-- Pattern `^Account with ID \d+ created by User\d+\.$` -/
def patAccountCreated (s : String) : Bool :=
  fullMatch
    (andThen (lit "Account with ID ".data)
      (andThen digits1
        (andThen (lit " created by User".data)
          (andThen digits1 (lit ".".data)))))
    s.data

/-- Fragment `\d{4}-\d{2}-\d{2} \d{2}:\d{2}:\d{2}` -/
def timestampP : List Char → Option (List Char) :=
  andThen (digitsN 4)
    (andThen (lit "-".data)
      (andThen (digitsN 2)
        (andThen (lit "-".data)
          (andThen (digitsN 2)
            (andThen (lit " ".data)
              (andThen (digitsN 2)
                (andThen (lit ":".data)
                  (andThen (digitsN 2)
                    (andThen (lit ":".data) (digitsN 2))))))))))

/-- Pattern `^Backup started at \d{4}-\d{2}-\d{2} \d{2}:\d{2}:\d{2}\.$` -/
def patBackupStarted (s : String) : Bool :=
  fullMatch
    (andThen (lit "Backup started at ".data)
      (andThen timestampP (lit ".".data)))
    s.data

/-- Pattern `^Backup ended at \d{4}-\d{2}-\d{2} \d{2}:\d{2}:\d{2}\.$` -/
def patBackupEnded (s : String) : Bool :=
  fullMatch
    (andThen (lit "Backup ended at ".data)
      (andThen timestampP (lit ".".data)))
    s.data

/-- Pattern `^Backup completed successfully\.$` -/
def patBackupCompleted (s : String) : Bool :=
  fullMatch (lit "Backup completed successfully.".data) s.data

/-- Pattern `^System updated to version \d+\.\d+\.\d+\.$` -/
def patSystemUpdated (s : String) : Bool :=
  fullMatch
    (andThen (lit "System updated to version ".data)
      (andThen digits1
        (andThen (lit ".".data)
          (andThen digits1
            (andThen (lit ".".data)
              (andThen digits1 (lit ".".data)))))))
    s.data

/-- Pattern `^File .+ uploaded successfully by user User\d+\.$` -/
def patFileUploaded (s : String) : Bool :=
  match lit "File ".data s.data with
  | none => false
  | some rest =>
    dotPlusThen
      (fullMatch
        (andThen (lit " uploaded successfully by user User".data)
          (andThen digits1 (lit ".".data))))
      rest

/-- Pattern `^Disk cleanup completed successfully\.$` -/
def patDiskCleanup (s : String) : Bool :=
  fullMatch (lit "Disk cleanup completed successfully.".data) s.data

/-- Pattern `^System reboot initiated by user User\d+\.$` -/
def patSystemReboot (s : String) : Bool :=
  fullMatch
    (andThen (lit "System reboot initiated by user User".data)
      (andThen digits1 (lit ".".data)))
    s.data

/-- Pattern `^User login successful\.$` with `re.I`: compare after ASCII lowering. -/
def patUserLoginSuccessful (s : String) : Bool :=
  fullMatch (lit "user login successful.".data) (s.data.map Char.toLower)

/-- Does word `w` start at the head of `s` with a right word boundary
(`\b` after the word)? -/
def wordAtHead (w s : List Char) : Bool :=
  w.isPrefixOf s &&
    (match s.drop w.length with
     | [] => true
     | c :: _ => !isWordChar c)

/-- Search `s` for `w` preceded and followed by a word boundary; `prev` is
the character just before the current position (`none` at string start). -/
def searchWordAux (w : List Char) : Option Char → List Char → Bool
  | prev, s =>
    ((match prev with
      | none => true
      | some c => !isWordChar c) && wordAtHead w s) ||
    (match s with
     | [] => false
     | c :: cs => searchWordAux w (some c) cs)

/-- Case-insensitive search for `\bw\b` anywhere in the message. -/
def searchWordCI (w : String) (s : String) : Bool :=
  searchWordAux (w.data.map Char.toLower) none (s.data.map Char.toLower)

/-- Pattern `\bunauthorized\b|\bfailed login\b|\bblocked\b|\bsuspicious\b` with `re.I`. -/
def patSecurityKeywords (s : String) : Bool :=
  searchWordCI "unauthorized" s || searchWordCI "failed login" s ||
    searchWordCI "blocked" s || searchWordCI "suspicious" s

/-- The ordered rule list `RegexProcessor.REGEX_RULES`: (pattern, label)
pairs, evaluated top to bottom. -/
def REGEX_RULES : List ((String → Bool) × String) :=
  [ (patUserLogged, "USER_ACTION"),
    (patAccountCreated, "USER_ACTION"),
    (patBackupStarted, "SYSTEM_NOTIFICATION"),
    (patBackupEnded, "SYSTEM_NOTIFICATION"),
    (patBackupCompleted, "SYSTEM_NOTIFICATION"),
    (patSystemUpdated, "SYSTEM_NOTIFICATION"),
    (patFileUploaded, "SYSTEM_NOTIFICATION"),
    (patDiskCleanup, "SYSTEM_NOTIFICATION"),
    (patSystemReboot, "SYSTEM_NOTIFICATION"),
    (patUserLoginSuccessful, "USER_ACTION"),
    (patSecurityKeywords, "SECURITY_ALERT") ]

/-- The `for pattern, label in rules: if pattern.search(message): return label`
loop of `RegexProcessor.classify`. -/
def firstMatch : List ((String → Bool) × String) → String → Option String
  | [], _ => none
  | (p, l) :: rest, m => if p m then some l else firstMatch rest m

namespace RegexProcessor

/-- Method `RegexProcessor.classify`: first matching rule's label, else `None`.
The surrounding `try/except` only logs and returns `None`; the embedded
matching is total, so no fault path remains. -/
def classify (message : String) : Option String :=
  firstMatch REGEX_RULES message

end RegexProcessor

/-! ## The embedding classifier (`BertProcessor`) -/

/-- The opaque transformer + pickled classifier pair loaded by
`BertProcessor._load_models`. `encodeProba` folds `transformer.encode`
followed by `clf.predict_proba` on the single-row batch `[message]` into a
row of class probabilities (rationals model the float values); `predictIdx`
is `clf.predict(...)[0]`. Either operation may raise, modelled by
`Except Unit`. -/
structure BertClf where
  encodeProba : String → Except Unit (List ℚ)
  predictIdx : String → Except Unit ℕ

/-- Binary maximum on the rational probability values, written so that it
evaluates by kernel reduction. -/
def ratMax (a b : ℚ) : ℚ := if a ≤ b then b else a

/-- Models the `numpy` call `.max()` on the probability row: raises on an empty array. -/
def npMax : List ℚ → Except Unit ℚ
  | [] => .error ()
  | c :: cs => .ok (cs.foldl ratMax c)

/-- The `BertProcessor` instance: the truthiness guard on
`self.transformer`/`self.clf` plus the model pair. After a successful
`__init__` both are set; `loaded` models the `if not self.transformer or
not self.clf` guard. -/
structure BertProcessor where
  loaded : Bool
  clf : BertClf

namespace BertProcessor

/-- Table `BertProcessor.LABEL_MAP`: the static index → label table. -/
def LABEL_MAP : List (ℕ × String) :=
  [ (0, "Critical Error"),
    (1, "Error"),
    (2, "HTTP Status"),
    (3, "Resource Usage"),
    (4, "Security Alert") ]

/-- Models `dict.get(label_index, "Unclassified")` on `LABEL_MAP`. -/
def labelMapGet (i : ℕ) : String :=
  match LABEL_MAP.lookup i with
  | some l => l
  | none => "Unclassified"

/-- Method `BertProcessor.classify`: guard on loaded models, encode and take
class probabilities, gate on `max_proba < 0.5`, otherwise map the
predicted index through `LABEL_MAP`; every fault inside the `try` is
absorbed to `"Unclassified"`. -/
def classify (b : BertProcessor) (message : String) : String :=
  if !b.loaded then "Unclassified"
  else
    match b.clf.encodeProba message with
    | .error _ => "Unclassified"
    | .ok proba =>
      match npMax proba with
      | .error _ => "Unclassified"
      | .ok maxProba =>
        if maxProba < (1 : ℚ) / 2 then "Unclassified"
        else
          match b.clf.predictIdx message with
          | .error _ => "Unclassified"
          | .ok labelIndex => labelMapGet labelIndex

end BertProcessor

/-- First index attaining the maximum of a probability row
(`numpy.argmax` semantics: earliest maximal entry), used to state the
scikit-learn contract `predict = classes_[argmax(predict_proba)]`. -/
def argmaxIdx : List ℚ → ℕ
  | [] => 0
  | c :: cs => if cs.foldl ratMax c = c then 0 else argmaxIdx cs + 1

/-! ## The generative classifier (`LlmProcessor`) -/

/-- Outcome of one `groq.chat.completions.create` call: either the
response content string `response.choices[0].message.content`, or any
raising path (network error, timeout, bad credentials, empty choices). -/
inductive LlmResponse
  | success (content : String)
  | failure
deriving DecidableEq

/-- The remote Groq client, modelled as a pure function from the prompt
sent to the call's outcome. -/
structure GroqClient where
  call : String → LlmResponse

/-- The `LlmProcessor` instance: `self.groq` is `None` when `Groq()`
raised in `__init__`. -/
structure LlmProcessor where
  groq : Option GroqClient

namespace LlmProcessor

/-- Constructor `LlmProcessor.__init__`: `try: self.groq = Groq(...) except: self.groq
= None`. Construction is total: both outcomes produce a processor. -/
def init (clientInit : Except Unit GroqClient) : LlmProcessor :=
  ⟨clientInit.toOption⟩

/-- The fixed instruction prompt built around the log message. The
surrounding taxonomy text is constant; only the trailing message varies. -/
def mkPrompt (message : String) : String :=
  "Developer: Classify the following log message into one of the " ++
    "categories below based on its primary issue. ... Log message: " ++
    message

/-- Python `str.strip()`: drop leading and trailing whitespace
(space, tab, newline, carriage return, vertical tab, form feed). -/
def pyStrip (s : String) : String :=
  let ws : Char → Bool := fun c =>
    c = ' ' || c = '\t' || c = '\n' || c = '\r' || c = '\x0b' || c = '\x0c'
  ⟨((s.data.dropWhile ws).reverse.dropWhile ws).reverse⟩

/-- Index of the first occurrence of `needle` in `haystack`, if any. -/
def findSub (needle : List Char) : List Char → Option ℕ
  | [] => if needle.isEmpty then some 0 else none
  | c :: cs =>
    if needle.isPrefixOf (c :: cs) then some 0
    else (findSub needle cs).map (· + 1)

/-- Models `re.search(r"<label>(.*?)</label>", res, flags=re.DOTALL)`: the
leftmost `<label>` that is followed by a `</label>` starts the match, and
the lazy group ends at the earliest subsequent `</label>`. Returns the
group's content. -/
def extractLabel (res : String) : Option String :=
  match findSub "<label>".data res.data with
  | none => none
  | some i =>
    let afterOpen := res.data.drop (i + 7)
    match findSub "</label>".data afterOpen with
    | none => none
    | some j => some ⟨afterOpen.take j⟩

/-- Method `LlmProcessor.classify`, instrumented: the returned list records every
prompt sent to the backend, so that "no network I/O" is visible in the
result. Mirrors the source: missing client → `"Unclassified"` with no
call; call failure → `"Unclassified"`; response without a delimited label
→ `"Miscellaneous"`; otherwise the stripped group. -/
def classifyRun (p : LlmProcessor) (message : String) :
    String × List String :=
  match p.groq with
  | none => ("Unclassified", [])
  | some client =>
    let prompt := mkPrompt message
    match client.call prompt with
    | .failure => ("Unclassified", [prompt])
    | .success res =>
      match extractLabel res with
      | some grp => (pyStrip grp, [prompt])
      | none => ("Miscellaneous", [prompt])

/-- Method `LlmProcessor.classify`: the label alone. -/
def classify (p : LlmProcessor) (message : String) : String :=
  (p.classifyRun message).1

end LlmProcessor

/-! ## The pipeline (`LogClassifier`, src/main.py) -/

/-- A row handed to `batch_classify`: the `source` and `log_message`
fields of one record. -/
structure LogRecord where
  source : String
  log_message : String

/-- Structure `LogClassifier`: the regex processor is the concrete rule engine
above; the embedding and generative processors carry their opaque models
and client. -/
structure LogClassifier where
  bert_processor : BertProcessor
  llm_processor : LlmProcessor

namespace LogClassifier

/-- Method `LogClassifier.classify_message`: regex first (Python truthiness on
the optional label), then the embedding stage unless it answers
`"Unclassified"`, then the generative stage unconditionally. -/
def classify_message (c : LogClassifier) (src message : String) : String :=
  let label := RegexProcessor.classify message
  if pyTruthy label then label.getD ""
  else
    let label2 := c.bert_processor.classify message
    if label2 ≠ "Unclassified" then label2
    else c.llm_processor.classify message

/-- One step of the `batch_classify` loop body, as trace events:
classifying a record, or sleeping `ms` milliseconds (`time.sleep(0.2)`). -/
inductive BatchEvent
  | classifyEv (source log_message label : String)
  | sleepEv (ms : ℕ)
deriving DecidableEq

/-- Method `LogClassifier.batch_classify`, instrumented: the loop appends each
record's label and then sleeps 200 ms; the event list records both. -/
def batchRun (c : LogClassifier) : List LogRecord →
    List String × List BatchEvent
  | [] => ([], [])
  | log :: rest =>
    let label := c.classify_message log.source log.log_message
    let (labels, evs) := batchRun c rest
    (label :: labels,
      .classifyEv log.source log.log_message label :: .sleepEv 200 :: evs)

/-- Method `LogClassifier.batch_classify`: the label sequence alone. -/
def batch_classify (c : LogClassifier) (logs : List LogRecord) :
    List String :=
  (c.batchRun logs).1

/-- Total milliseconds slept during a batch trace. -/
def totalSleep : List BatchEvent → ℕ
  | [] => 0
  | .sleepEv ms :: evs => ms + totalSleep evs
  | .classifyEv _ _ _ :: evs => totalSleep evs

end LogClassifier

/-! ## Concrete model instances used to exercise the definitions -/

/-- A classifier model whose operations always fault. -/
def clfErr : BertClf := ⟨fun _ => .error (), fun _ => .error ()⟩

/-- A classifier model returning a fixed probability row and index. -/
def clfConst (proba : List ℚ) (idx : ℕ) : BertClf :=
  ⟨fun _ => .ok proba, fun _ => .ok idx⟩

/-- A loaded `BertProcessor` around a given model. -/
def bertOf (clf : BertClf) : BertProcessor := ⟨true, clf⟩

/-- An `LlmProcessor` whose client failed to construct. -/
def llmOff : LlmProcessor := ⟨none⟩

/-- An `LlmProcessor` whose client always yields the given outcome. -/
def llmConst (r : LlmResponse) : LlmProcessor := ⟨some ⟨fun _ => r⟩⟩

/-- A pipeline from given embedding and generative processors. -/
def classifierOf (b : BertProcessor) (l : LlmProcessor) : LogClassifier :=
  ⟨b, l⟩

/-! ## Helper lemmas -/

/-- A label produced by the first-match loop comes from the rule list. -/
theorem firstMatch_label_mem (rules : List ((String → Bool) × String))
    (m l : String) (h : firstMatch rules m = some l) :
    l ∈ rules.map Prod.snd := by
  induction rules with
  | nil => simp [firstMatch] at h
  | cons r rest ih =>
    obtain ⟨p, lbl⟩ := r
    by_cases hp : p m
    · simp [firstMatch, hp] at h
      simp [h]
    · simp only [firstMatch, hp, if_neg, Bool.false_eq_true,
        ite_false] at h
      simp [ih h]

/-- Every label in the rule table is a non-empty string. -/
theorem regex_label_not_empty (m l : String)
    (h : RegexProcessor.classify m = some l) : l.isEmpty = false := by
  have hmem := firstMatch_label_mem REGEX_RULES m l h
  have : ∀ x ∈ REGEX_RULES.map Prod.snd, x.isEmpty = false := by decide
  exact this l hmem

/-- Rules that all reject the message are skipped by the loop. -/
theorem firstMatch_skip (pre rest : List ((String → Bool) × String))
    (m : String) (h : ∀ r ∈ pre, r.1 m = false) :
    firstMatch (pre ++ rest) m = firstMatch rest m := by
  induction pre with
  | nil => rfl
  | cons r tail ih =>
    have hr : r.1 m = false := h r (by simp)
    have htail : ∀ r' ∈ tail, r'.1 m = false := fun r' hr' =>
      h r' (by simp [hr'])
    obtain ⟨p, lbl⟩ := r
    simp only [List.cons_append, firstMatch]
    rw [show p m = false from hr]
    simpa using ih htail

/-- The loop returns `none` when every rule rejects. -/
theorem firstMatch_none (rules : List ((String → Bool) × String))
    (m : String) (h : ∀ r ∈ rules, r.1 m = false) :
    firstMatch rules m = none := by
  have := firstMatch_skip rules [] m h
  simpa using this

/-! ## C5: first-match rule order and absent result -/

/-- C5: the pattern matcher evaluates `REGEX_RULES` in fixed order; for a
message accepted by some rule, the earliest rule whose pattern matches
determines the returned label, and a message matching no rule yields
`none` rather than an error. -/
theorem regex_first_match_wins (m : String) :
    (∀ pre rule post, REGEX_RULES = pre ++ rule :: post →
        (∀ r ∈ pre, r.1 m = false) → rule.1 m = true →
        RegexProcessor.classify m = some rule.2) ∧
    ((∀ r ∈ REGEX_RULES, r.1 m = false) →
        RegexProcessor.classify m = none) := by
  constructor
  · intro pre rule post hdecomp hpre hrule
    unfold RegexProcessor.classify
    rw [hdecomp, firstMatch_skip pre (rule :: post) m hpre]
    obtain ⟨p, lbl⟩ := rule
    simp only [firstMatch]
    rw [show p m = true from hrule]
    simp
  · intro hall
    exact firstMatch_none REGEX_RULES m hall

/-- Witness for C5: the security-keyword rule (position 10) is the first
to accept `"Account blocked due to suspicious activity."`, and
`"Non-matching log message."` matches no rule. -/
theorem regex_first_match_wins_w :
    RegexProcessor.classify "Account blocked due to suspicious activity." =
      some "SECURITY_ALERT" ∧
    RegexProcessor.classify "Non-matching log message." = none := by
  constructor
  · exact (regex_first_match_wins
        "Account blocked due to suspicious activity.").1
      [ (patUserLogged, "USER_ACTION"),
        (patAccountCreated, "USER_ACTION"),
        (patBackupStarted, "SYSTEM_NOTIFICATION"),
        (patBackupEnded, "SYSTEM_NOTIFICATION"),
        (patBackupCompleted, "SYSTEM_NOTIFICATION"),
        (patSystemUpdated, "SYSTEM_NOTIFICATION"),
        (patFileUploaded, "SYSTEM_NOTIFICATION"),
        (patDiskCleanup, "SYSTEM_NOTIFICATION"),
        (patSystemReboot, "SYSTEM_NOTIFICATION"),
        (patUserLoginSuccessful, "USER_ACTION") ]
      (patSecurityKeywords, "SECURITY_ALERT") [] rfl (by decide) (by decide)
  · exact (regex_first_match_wins "Non-matching log message.").2 (by decide)

/-! ## C1: the three-stage waterfall -/

/-- C1: for every source and message, `classify_message` follows the
waterfall exactly: a pattern-matcher label is returned immediately; else
an embedding result other than `"Unclassified"` is returned; else the
generative result is returned unchanged. -/
theorem classify_message_waterfall (c : LogClassifier)
    (src message : String) :
    (∀ l, RegexProcessor.classify message = some l →
        c.classify_message src message = l) ∧
    (RegexProcessor.classify message = none →
        c.bert_processor.classify message ≠ "Unclassified" →
        c.classify_message src message =
          c.bert_processor.classify message) ∧
    (RegexProcessor.classify message = none →
        c.bert_processor.classify message = "Unclassified" →
        c.classify_message src message =
          c.llm_processor.classify message) := by
  refine ⟨?_, ?_, ?_⟩
  · intro l hl
    have hne := regex_label_not_empty message l hl
    simp [LogClassifier.classify_message, hl, pyTruthy, hne]
  · intro hnone hb
    simp [LogClassifier.classify_message, hnone, pyTruthy, hb]
  · intro hnone hb
    simp [LogClassifier.classify_message, hnone, pyTruthy, hb]

/-- Witness for C1: one concrete pipeline run through each stage — a
regex hit, a confident embedding answer, and a generative fallback. -/
theorem classify_message_waterfall_w :
    (classifierOf (bertOf clfErr) llmOff).classify_message
        "app" "User login successful." = "USER_ACTION" ∧
    (classifierOf (bertOf (clfConst [(1 : ℚ)/10, 1/10, 7/10, 1/10] 2))
        llmOff).classify_message "app" "Hello from worker process" =
      "HTTP Status" ∧
    (classifierOf ⟨false, clfErr⟩
        (llmConst (.success "<label>Workflow Error</label>"))).classify_message
        "app" "Hello from worker process" = "Workflow Error" := by
  refine ⟨?_, ?_, ?_⟩
  · exact (classify_message_waterfall (classifierOf (bertOf clfErr) llmOff)
      "app" "User login successful.").1 "USER_ACTION" (by decide)
  · exact ((classify_message_waterfall
        (classifierOf (bertOf (clfConst [(1 : ℚ)/10, 1/10, 7/10, 1/10] 2))
          llmOff)
        "app" "Hello from worker process").2.1
      (by decide)
      (by norm_num [BertProcessor.classify, classifierOf, bertOf, clfConst,
            npMax, ratMax, BertProcessor.labelMapGet, BertProcessor.LABEL_MAP]
            <;> decide)).trans
      (by norm_num [BertProcessor.classify, classifierOf, bertOf, clfConst,
            npMax, ratMax, BertProcessor.labelMapGet, BertProcessor.LABEL_MAP]
            <;> decide)
  · exact ((classify_message_waterfall
        (classifierOf ⟨false, clfErr⟩
          (llmConst (.success "<label>Workflow Error</label>")))
        "app" "Hello from worker process").2.2
      (by decide) (by decide)).trans (by decide)

/-! ## C10: the source argument is ignored -/

/-- C10: `classify_message` never consults its `src` argument — the label
depends only on the message text. -/
theorem classify_message_ignores_source (c : LogClassifier)
    (s1 s2 message : String) :
    c.classify_message s1 message = c.classify_message s2 message := rfl

/-! ## C6: totality and fault absorption -/

/-- C6: classification never raises to the caller: a faulting embedding
inference and a failing (or never-constructed) generative client each
collapse to `"Unclassified"` inside their stage, and for every message —
the empty string included — `classify_message` returns one of the three
stages' string results. -/
theorem classify_message_total_sentinels (c : LogClassifier)
    (src message : String) :
    (c.bert_processor.clf.encodeProba message = .error () →
        c.bert_processor.classify message = "Unclassified") ∧
    (∀ client, c.llm_processor.groq = some client →
        client.call (LlmProcessor.mkPrompt message) = .failure →
        c.llm_processor.classify message = "Unclassified") ∧
    (c.llm_processor.groq = none →
        c.llm_processor.classify message = "Unclassified") ∧
    ((∃ l, RegexProcessor.classify message = some l ∧
        c.classify_message src message = l) ∨
      c.classify_message src message = c.bert_processor.classify message ∨
      c.classify_message src message = c.llm_processor.classify message) := by
  refine ⟨?_, ?_, ?_, ?_⟩
  · intro h
    cases hb : c.bert_processor.loaded <;>
      simp [BertProcessor.classify, hb, h]
  · intro client hc hf
    simp [LlmProcessor.classify, LlmProcessor.classifyRun, hc, hf]
  · intro h
    simp [LlmProcessor.classify, LlmProcessor.classifyRun, h]
  · rcases hreg : RegexProcessor.classify message with _ | l
    · by_cases hb : c.bert_processor.classify message = "Unclassified"
      · right; right
        simp [LogClassifier.classify_message, hreg, pyTruthy, hb]
      · right; left
        simp [LogClassifier.classify_message, hreg, pyTruthy, hb]
    · left
      have hne := regex_label_not_empty message l hreg
      exact ⟨l, rfl,
        by simp [LogClassifier.classify_message, hreg, pyTruthy, hne]⟩

/-- Witness for C6: the fault-absorbing branches on concrete degraded
processors, on the empty message. -/
theorem classify_message_total_sentinels_w :
    (bertOf clfErr).classify "" = "Unclassified" ∧
    (llmConst .failure).classify "" = "Unclassified" ∧
    llmOff.classify "" = "Unclassified" ∧
    ((∃ l, RegexProcessor.classify "" = some l ∧
        (classifierOf (bertOf clfErr) llmOff).classify_message "s" "" = l) ∨
      (classifierOf (bertOf clfErr) llmOff).classify_message "s" "" =
        (bertOf clfErr).classify "" ∨
      (classifierOf (bertOf clfErr) llmOff).classify_message "s" "" =
        llmOff.classify "") := by
  refine ⟨?_, ?_, ?_, ?_⟩
  · exact (classify_message_total_sentinels
      (classifierOf (bertOf clfErr) llmOff) "s" "").1 rfl
  · exact (classify_message_total_sentinels
      (classifierOf (bertOf clfErr) (llmConst .failure)) "s" "").2.1
      ⟨fun _ => .failure⟩ rfl rfl
  · exact (classify_message_total_sentinels
      (classifierOf (bertOf clfErr) llmOff) "s" "").2.2.1 rfl
  · exact (classify_message_total_sentinels
      (classifierOf (bertOf clfErr) llmOff) "s" "").2.2.2

/-! ## C2: the strict-less-than confidence gate -/

/-- C2: when inference succeeds, a maximum class probability strictly
below 0.5 gates the result to `"Unclassified"` (the predicted index is
discarded: it is never consulted), while a maximum of exactly 0.5 or more
does not gate — the mapped label for the predicted index is surfaced. -/
theorem bert_gate_strict (b : BertProcessor) (message : String)
    (proba : List ℚ) (mx : ℚ)
    (hload : b.loaded = true)
    (hp : b.clf.encodeProba message = .ok proba)
    (hmx : npMax proba = .ok mx) :
    (mx < 1/2 → b.classify message = "Unclassified") ∧
    (1/2 ≤ mx → ∀ i, b.clf.predictIdx message = .ok i →
        b.classify message = BertProcessor.labelMapGet i) := by
  have hbody : b.classify message =
      (if mx < 1/2 then "Unclassified"
       else
         match b.clf.predictIdx message with
         | .error _ => "Unclassified"
         | .ok labelIndex => BertProcessor.labelMapGet labelIndex) := by
    simp only [BertProcessor.classify, hload, Bool.not_true,
      Bool.false_eq_true, if_false, hp, hmx]
  constructor
  · intro hlt
    rw [hbody, if_pos hlt]
  · intro hge i hi
    rw [hbody, if_neg (not_lt.mpr hge), hi]

/-- Witness for C2: max probability 2/5 gates to `"Unclassified"`; max
probability exactly 1/2 does not gate and surfaces the mapped label. -/
theorem bert_gate_strict_w :
    (bertOf (clfConst [(3 : ℚ)/10, 3/10, 2/5] 2)).classify "m" =
      "Unclassified" ∧
    (bertOf (clfConst [(1 : ℚ)/2, 1/2] 0)).classify "m" =
      BertProcessor.labelMapGet 0 := by
  constructor
  · exact (bert_gate_strict (bertOf (clfConst [(3 : ℚ)/10, 3/10, 2/5] 2))
      "m" [(3 : ℚ)/10, 3/10, 2/5] (2/5) rfl rfl
      (by norm_num [npMax, ratMax]) ).1 (by norm_num)
  · exact (bert_gate_strict (bertOf (clfConst [(1 : ℚ)/2, 1/2] 0))
      "m" [(1 : ℚ)/2, 1/2] (1/2) rfl rfl
      (by norm_num [npMax, ratMax]) ).2 (le_refl _) 0 rfl

/-! ## C7: arg-max label mapping above the gate -/

/-- C7: when the maximum probability is at least 0.5 and the classifier's
`predict` agrees with the arg-max of its own `predict_proba` row (the
scikit-learn contract for probabilistic classifiers), the returned label
is the `LABEL_MAP` entry for that arg-max index, and an index missing
from the table resolves to `"Unclassified"`. -/
theorem bert_argmax_mapping (b : BertProcessor) (message : String)
    (proba : List ℚ) (mx : ℚ)
    (hload : b.loaded = true)
    (hp : b.clf.encodeProba message = .ok proba)
    (hmx : npMax proba = .ok mx)
    (hge : 1/2 ≤ mx)
    (hsk : b.clf.predictIdx message = .ok (argmaxIdx proba)) :
    b.classify message = BertProcessor.labelMapGet (argmaxIdx proba) ∧
    (BertProcessor.LABEL_MAP.lookup (argmaxIdx proba) = none →
        b.classify message = "Unclassified") := by
  have h1 : b.classify message =
      BertProcessor.labelMapGet (argmaxIdx proba) := by
    simp only [BertProcessor.classify, hload, Bool.not_true,
      Bool.false_eq_true, if_false, hp, hmx]
    rw [if_neg (not_lt.mpr hge), hsk]
  refine ⟨h1, fun hnone => ?_⟩
  rw [h1]
  simp [BertProcessor.labelMapGet, hnone]

/-- Witness for C7: arg-max index 1 maps to `"Error"`; an arg-max index
(5) outside the table yields `"Unclassified"`. -/
theorem bert_argmax_mapping_w :
    (bertOf (clfConst [(1 : ℚ)/10, 7/10, 1/10, 1/10] 1)).classify "m" =
      "Error" ∧
    (bertOf (clfConst [(0 : ℚ), 0, 0, 0, 0, 1] 5)).classify "m" =
      "Unclassified" := by
  constructor
  · have harg : argmaxIdx [(1 : ℚ)/10, 7/10, 1/10, 1/10] = 1 := by
      norm_num [argmaxIdx, ratMax]
    have := (bert_argmax_mapping
      (bertOf (clfConst [(1 : ℚ)/10, 7/10, 1/10, 1/10] 1)) "m"
      [(1 : ℚ)/10, 7/10, 1/10, 1/10] (7/10) rfl rfl
      (by norm_num [npMax, ratMax]) (by norm_num)
      (by rw [harg]; rfl)).1
    rw [harg] at this
    exact this.trans (by decide)
  · have harg : argmaxIdx [(0 : ℚ), 0, 0, 0, 0, 1] = 5 := by
      norm_num [argmaxIdx, ratMax]
    have := bert_argmax_mapping
      (bertOf (clfConst [(0 : ℚ), 0, 0, 0, 0, 1] 5)) "m"
      [(0 : ℚ), 0, 0, 0, 0, 1] 1 rfl rfl
      (by norm_num [npMax, ratMax]) (by norm_num)
      (by rw [harg]; rfl)
    exact this.2 (by rw [harg]; decide)

/-! ## C4: the generative stage's two sentinels -/

/-- C4: with a constructed client, a successful call whose response holds
no delimiter-wrapped label yields `"Miscellaneous"`, any raising call
yields `"Unclassified"`, the two sentinels are distinct strings, and the
stage is a total function (it never raises to its caller). -/
theorem llm_sentinel_distinction (client : GroqClient) (message : String) :
    (∀ res, client.call (LlmProcessor.mkPrompt message) = .success res →
        LlmProcessor.extractLabel res = none →
        LlmProcessor.classify ⟨some client⟩ message = "Miscellaneous") ∧
    (client.call (LlmProcessor.mkPrompt message) = .failure →
        LlmProcessor.classify ⟨some client⟩ message = "Unclassified") ∧
    ("Miscellaneous" : String) ≠ "Unclassified" := by
  refine ⟨?_, ?_, by decide⟩
  · intro res hcall hparse
    simp [LlmProcessor.classify, LlmProcessor.classifyRun, hcall, hparse]
  · intro hcall
    simp [LlmProcessor.classify, LlmProcessor.classifyRun, hcall]

/-- Witness for C4: a backend that answers with no `<label>` tag gives
`"Miscellaneous"`; a backend that raises gives `"Unclassified"`. -/
theorem llm_sentinel_distinction_w :
    LlmProcessor.classify ⟨some ⟨fun _ => .success "no tag here"⟩⟩ "m" =
      "Miscellaneous" ∧
    LlmProcessor.classify ⟨some ⟨fun _ => .failure⟩⟩ "m" =
      "Unclassified" := by
  constructor
  · exact (llm_sentinel_distinction ⟨fun _ => .success "no tag here"⟩
      "m").1 "no tag here" rfl (by decide)
  · exact (llm_sentinel_distinction ⟨fun _ => .failure⟩ "m").2.1 rfl

/-! ## C8: degraded construction of the generative stage -/

/-- C8: when `Groq()` raises during construction, `__init__` swallows the
fault (construction is a total function of the init outcome), and every
subsequent `classify` call returns `"Unclassified"` with an empty request
trace — no network I/O is attempted. -/
theorem llm_degraded_construction (clientInit : Except Unit GroqClient)
    (message : String) (h : clientInit = .error ()) :
    (LlmProcessor.init clientInit).classifyRun message =
      ("Unclassified", []) := by
  subst h
  rfl

/-- Witness for C8: a failed client construction, classified on a
concrete message. -/
theorem llm_degraded_construction_w :
    (LlmProcessor.init (.error ())).classifyRun "boom" =
      ("Unclassified", []) :=
  llm_degraded_construction (.error ()) "boom" rfl

/-! ## C3: batch classification length and order -/

/-- C3: for every record sequence (the empty one included),
`batch_classify` returns exactly one label per record, in input order,
the i-th being `classify_message` of the i-th record. -/
theorem batch_classify_len_order (c : LogClassifier)
    (logs : List LogRecord) :
    (c.batch_classify logs).length = logs.length ∧
    ∀ i, i < logs.length →
      (c.batch_classify logs).getD i "" =
        c.classify_message ((logs.getD i ⟨"", ""⟩).source)
          ((logs.getD i ⟨"", ""⟩).log_message) := by
  induction logs with
  | nil => exact ⟨rfl, fun i hi => absurd hi (by simp)⟩
  | cons log rest ih =>
    have hcons : c.batch_classify (log :: rest) =
        c.classify_message log.source log.log_message ::
          c.batch_classify rest := by
      rcases hr : c.batchRun rest with ⟨labels, evs⟩
      simp [LogClassifier.batch_classify, LogClassifier.batchRun, hr]
    constructor
    · rw [hcons]
      simp [ih.1]
    · intro i hi
      rw [hcons]
      cases i with
      | zero => rfl
      | succ j =>
        have hj : j < rest.length := by
          simpa using hi
        simpa using ih.2 j hj

/-- Witness for C3: a concrete two-record batch, classified in order. -/
theorem batch_classify_len_order_w :
    ((classifierOf (bertOf clfErr) llmOff).batch_classify
        [⟨"app", "User User7 logged in."⟩, ⟨"web", "no rule hit"⟩]).length
      = 2 ∧
    ((classifierOf (bertOf clfErr) llmOff).batch_classify
        [⟨"app", "User User7 logged in."⟩, ⟨"web", "no rule hit"⟩]).getD 1 ""
      = (classifierOf (bertOf clfErr) llmOff).classify_message
          "web" "no rule hit" := by
  constructor
  · exact (batch_classify_len_order (classifierOf (bertOf clfErr) llmOff)
      [⟨"app", "User User7 logged in."⟩, ⟨"web", "no rule hit"⟩]).1
  · exact (batch_classify_len_order (classifierOf (bertOf clfErr) llmOff)
      [⟨"app", "User User7 logged in."⟩, ⟨"web", "no rule hit"⟩]).2 1
      (by decide)

/-! ## C9: batch pacing -/

/-- C9: the batch runner emits a fixed 200 ms sleep after each record's
classification — so a sleep separates every pair of successive
classifications regardless of which stage answered — and for N ≥ 2
records the total slept time is at least (N − 1) × 200 ms. -/
theorem batch_pacing (c : LogClassifier) (logs : List LogRecord)
    (h : 2 ≤ logs.length) :
    (c.batchRun logs).2 =
      logs.flatMap (fun log =>
        [LogClassifier.BatchEvent.classifyEv log.source log.log_message
            (c.classify_message log.source log.log_message),
         LogClassifier.BatchEvent.sleepEv 200]) ∧
    (logs.length - 1) * 200 ≤
      LogClassifier.totalSleep (c.batchRun logs).2 := by
  have htrace : ∀ l : List LogRecord, (c.batchRun l).2 =
      l.flatMap (fun log =>
        [LogClassifier.BatchEvent.classifyEv log.source log.log_message
            (c.classify_message log.source log.log_message),
         LogClassifier.BatchEvent.sleepEv 200]) := by
    intro l
    induction l with
    | nil => rfl
    | cons log rest ih =>
      rcases hr : c.batchRun rest with ⟨labels, evs⟩
      rw [hr] at ih
      simp [LogClassifier.batchRun, hr, List.flatMap_cons, ih]
  have hsleep : ∀ l : List LogRecord,
      LogClassifier.totalSleep (c.batchRun l).2 = l.length * 200 := by
    intro l
    induction l with
    | nil => rfl
    | cons log rest ih =>
      rcases hr : c.batchRun rest with ⟨labels, evs⟩
      rw [hr] at ih
      simp only [LogClassifier.batchRun, hr, LogClassifier.totalSleep,
        List.length_cons, ih]
      ring
  refine ⟨htrace logs, ?_⟩
  rw [hsleep logs]
  exact Nat.mul_le_mul_right 200 (Nat.sub_le _ _)

/-- Witness for C9: a concrete two-record batch sleeps 200 ms after each
record, for 400 ms total, at least (2 − 1) × 200. -/
theorem batch_pacing_w :
    ((classifierOf (bertOf clfErr) llmOff).batchRun
        [⟨"a", "x"⟩, ⟨"b", "User login successful."⟩]).2 =
      [LogClassifier.BatchEvent.classifyEv "a" "x"
          ((classifierOf (bertOf clfErr) llmOff).classify_message "a" "x"),
       LogClassifier.BatchEvent.sleepEv 200,
       LogClassifier.BatchEvent.classifyEv "b" "User login successful."
          ((classifierOf (bertOf clfErr) llmOff).classify_message
            "b" "User login successful."),
       LogClassifier.BatchEvent.sleepEv 200] ∧
    (2 - 1) * 200 ≤ LogClassifier.totalSleep
      ((classifierOf (bertOf clfErr) llmOff).batchRun
        [⟨"a", "x"⟩, ⟨"b", "User login successful."⟩]).2 := by
  constructor
  · exact (batch_pacing (classifierOf (bertOf clfErr) llmOff)
      [⟨"a", "x"⟩, ⟨"b", "User login successful."⟩] (by decide)).1
  · exact (batch_pacing (classifierOf (bertOf clfErr) llmOff)
      [⟨"a", "x"⟩, ⟨"b", "User login successful."⟩] (by decide)).2

end Vigilis
